import Mathlib

/-!
Verification of the credential-acquisition module `awsume/awsumepy/lib/aws.py`.

The three operations `assume_role`, `get_session_token` and `get_account_id`
are embedded as pure Lean functions.  Interaction with the collaborators
(the remote identity service, the cache validity predicate, the interactive
MFA prompt, the durable cache storage) is captured by an explicit `Env`
record of oracles, and every call a run makes is recorded, in chronological
order, in a `List Effect` returned alongside the result.  Python exceptions
become the `Except PyErr` result; Python `dict.get` on possibly-missing keys
becomes `Option`; Python truthiness of strings and integers is modelled
explicitly.  A keyword argument passed with value `None` (as the code does
for `SerialNumber`/`TokenCode` when no MFA serial is present) is modelled as
the `none` argument, the code's marker for "parameter not supplied".
-/

/-- A timezone-aware timestamp: the absolute instant together with the zone
it is rendered in.  Python's `astimezone` keeps the instant and changes only
the rendering zone. -/
structure PyDateTime where
  instant : Int
  zone : String
deriving Repr, DecidableEq

/-- The local time zone, `dateutil.tz.tzlocal()`. -/
def tzlocal : String := "local"

/-- `datetime.astimezone`: same instant, new rendering zone. -/
def astimezone (d : PyDateTime) (z : String) : PyDateTime := ⟨d.instant, z⟩

/-- `parse_time` (aws.py line 19): local-time display string of a timestamp. -/
def parse_time (date_time : PyDateTime) : String :=
  let l := astimezone date_time tzlocal
  toString l.instant ++ "@" ++ l.zone

/-- A credentials dict.  Each field is `none` when the corresponding key is
absent from the dict. -/
structure Creds where
  accessKeyId : Option String
  secretAccessKey : Option String
  sessionToken : Option String
  expiration : Option PyDateTime
  region : Option String
deriving Repr, DecidableEq

/-- The exceptions a run can raise. -/
inductive PyErr where
  | userAuthenticationError (msg : String)
  | roleAuthenticationError (msg : String)
  | typeError (msg : String)
  | keyError (msg : String)
deriving Repr, DecidableEq

/-- The arguments `boto3.session.Session(...)` is constructed with. -/
structure ClientParams where
  awsAccessKeyId : Option String
  awsSecretAccessKey : Option String
  awsSessionToken : Option String
  regionName : String
deriving Repr, DecidableEq

/-- The keyword arguments assembled for the remote assume-role call; a field
is `none` when the keyword is not supplied. -/
structure AssumeRoleKwargs where
  roleSessionName : String
  roleArn : String
  externalId : Option String
  durationSeconds : Option Int
  serialNumber : Option String
  tokenCode : Option String
deriving Repr, DecidableEq

/-- The response of the remote get-caller-identity call. -/
structure CallerIdentity where
  account : Option String
deriving Repr, DecidableEq

/-- One observable interaction with a collaborator. -/
inductive Effect where
  | cacheRead (key : String)
  | cacheWrite (key : String) (value : Creds)
  | promptMfa
  | remoteAssumeRole (client : ClientParams) (kwargs : AssumeRoleKwargs)
  | remoteGetSessionToken (client : ClientParams)
      (serialNumber : Option String) (tokenCode : Option String)
  | remoteGetCallerIdentity (client : ClientParams)
  | notify (msg : String)
deriving Repr, DecidableEq

/-- The collaborators of aws.py.  Remote calls return `.error msg` for a
raised exception (any kind: network, auth, malformed request) and
`.ok r` for a response, where `r` is the response's `Credentials` entry
(`none` when that key is absent).  `cacheWriteOk` says whether the durable
storage write inside the best-effort cache write succeeds. -/
structure Env where
  validCacheSession : Option Creds → Bool
  stsAssumeRole : ClientParams → AssumeRoleKwargs → Except String (Option Creds)
  stsGetSessionToken : ClientParams → Option String → Option String →
      Except String (Option Creds)
  stsGetCallerIdentity : ClientParams → Except String CallerIdentity
  getMfaToken : String
  cacheWriteOk : Bool

/-- The durable cache store: a key-value map, `none` for absent records. -/
abbrev Cache := String → Option Creds

/-- Python truthiness of an optional string: `None` and `""` are falsy. -/
def truthyStr : Option String → Bool
  | none => false
  | some s => !(s == "")

/-- Python truthiness of an optional integer: `None` and `0` are falsy. -/
def truthyInt : Option Int → Bool
  | none => false
  | some n => !(n == 0)

/-- The Python expression `mfa_token or profile_lib.get_mfa_token()`:
the supplied token when truthy, otherwise the result of the interactive
prompt, recording the prompt invocation.  (`profile_lib.get_mfa_token` is
the interactive-prompt collaborator.) -/
def orGetMfaToken (env : Env) (mfa_token : Option String) : String × List Effect :=
  if truthyStr mfa_token then (mfa_token.getD "", [])
  else (env.getMfaToken, [Effect.promptMfa])

/-- Modelled from the spec: `cache_lib.read_aws_cache` lives in cache.py,
which is not among the sources; per the spec it "fails silently (returns
empty/absent) if no record exists or the record is malformed; never raises",
so a read is a plain lookup in the store. -/
def read_aws_cache (cache : Cache) (key : String) : Option Creds := cache key

/-- Modelled from the spec: `cache_lib.write_aws_cache` lives in cache.py,
which is not among the sources; per the spec it "persists creds, overwriting
any prior record under the same key" and "must not fail the overall operation
if the underlying storage write fails (log and continue)".  `ok` says whether
the underlying storage write succeeds; on failure the store is unchanged and
no exception escapes. -/
def write_aws_cache (ok : Bool) (cache : Cache) (key : String) (value : Creds) :
    Cache :=
  if ok then fun k => if k = key then some value else cache k else cache

/-- Modelled from the spec: `cache_lib.valid_cache_session` lives in
cache.py, which is not among the sources; per the spec "IsValid(creds?) is
true iff creds is non-absent, has all required fields populated, and
Expiration is strictly after the current instant".  `now` is the current
instant.  The claims about aws.py are proved for an arbitrary
`Env.validCacheSession`; this definition only instantiates it in witnesses. -/
def valid_cache_session_spec (now : Int) : Option Creds → Bool
  | none => false
  | some c =>
    c.accessKeyId.isSome && c.secretAccessKey.isSome && c.sessionToken.isSome &&
    (match c.expiration with
     | none => false
     | some e => decide (now < e.instant))

/-- str(e) of the Python TypeError raised by subscripting `None`
(`response.get('Credentials')` returned `None`). -/
def pyNoneSubscriptMsg : String := "'NoneType' object is not subscriptable"

/-- str(e) of the Python KeyError raised by `d['Expiration']` on a dict
without that key. -/
def pyExpirationKeyErrorMsg : String := "'Expiration'"

/-- str(e) of the Python TypeError raised by `'aws-credentials-' + None`. -/
def pyConcatNoneMsg : String := "can only concatenate str (not \"NoneType\") to str"

/-- The keyword-argument assembly of `assume_role` (aws.py lines 43-50):
the kwargs dict together with the effects (at most one MFA prompt) raised
while building it. -/
def build_assume_role_kwargs (env : Env) (role_arn : String) (session_name : String)
    (external_id : Option String) (role_duration : Option Int)
    (mfa_serial : Option String) (mfa_token : Option String) :
    AssumeRoleKwargs × List Effect :=
  let kwargs0 : AssumeRoleKwargs := ⟨session_name, role_arn, none, none, none, none⟩
  let kwargs1 :=
    if truthyStr external_id then { kwargs0 with externalId := external_id }
    else kwargs0
  let kwargs2 :=
    if truthyInt role_duration then { kwargs1 with durationSeconds := role_duration }
    else kwargs1
  if truthyStr mfa_serial then
    let t := orGetMfaToken env mfa_token
    ({ kwargs2 with serialNumber := mfa_serial, tokenCode := some t.1 }, t.2)
  else (kwargs2, [])

/-- The remote call and its post-processing in `assume_role` (aws.py lines
51-58): the remote call, exception classification, Expiration normalization,
Region stamping and the success notification.  `pre` is the trace up to and
including the remote-call effect. -/
def assume_role_remote (env : Env) (client : ClientParams) (kwargs : AssumeRoleKwargs)
    (region : String) (pre : List Effect) : Except PyErr Creds × List Effect :=
  match env.stsAssumeRole client kwargs with
  | .error e => (.error (.roleAuthenticationError e), pre)
  | .ok none => (.error (.roleAuthenticationError pyNoneSubscriptMsg), pre)
  | .ok (some role_session) =>
    match role_session.expiration with
    | none => (.error (.roleAuthenticationError pyExpirationKeyErrorMsg), pre)
    | some exp =>
      let role_session2 :=
        { role_session with expiration := some (astimezone exp tzlocal),
                            region := some region }
      (.ok role_session2,
       pre ++ [Effect.notify ("Role credentials will expire " ++
                 parse_time (astimezone exp tzlocal))])

/-- `assume_role` (aws.py lines 23-58).  Returns the Python outcome (the
credentials dict, or the raised exception) together with the chronological
effect list.  The whole body between `try` and `except` maps any raised
exception to `RoleAuthenticationError(str(e))`. -/
def assume_role (env : Env) (source_credentials : Creds) (role_arn : String)
    (session_name : String) (region : String) (external_id : Option String)
    (role_duration : Option Int) (mfa_serial : Option String)
    (mfa_token : Option String) : Except PyErr Creds × List Effect :=
  let client : ClientParams :=
    ⟨source_credentials.accessKeyId, source_credentials.secretAccessKey,
     source_credentials.sessionToken, region⟩
  let step3 :=
    build_assume_role_kwargs env role_arn session_name external_id role_duration
      mfa_serial mfa_token
  let kwargs := step3.1
  let pre := step3.2 ++ [Effect.remoteAssumeRole client kwargs]
  assume_role_remote env client kwargs region pre

/-- The remote phase of `get_session_token` (aws.py lines 76-89): the `try`
around the remote call and its post-processing (Expiration normalization,
Region stamping), exception classification into `UserAuthenticationError`,
the best-effort cache write, and the conditional success notification.
`trace1` is the trace up to and including the remote-call effect. -/
def get_session_token_remote (env : Env) (cache : Cache) (cache_file_name : String)
    (client : ClientParams) (serialArg tokenArg : Option String) (region : String)
    (trace1 : List Effect) : Except PyErr Creds × Cache × List Effect :=
  match env.stsGetSessionToken client serialArg tokenArg with
  | .error e => (.error (.userAuthenticationError e), cache, trace1)
  | .ok none => (.error (.userAuthenticationError pyNoneSubscriptMsg), cache, trace1)
  | .ok (some user_session) =>
    match user_session.expiration with
    | none =>
      (.error (.userAuthenticationError pyExpirationKeyErrorMsg), cache, trace1)
    | some exp =>
      let exp2 := astimezone exp tzlocal
      let user_session2 :=
        { user_session with expiration := some exp2, region := some region }
      let cache2 := write_aws_cache env.cacheWriteOk cache cache_file_name user_session2
      let trace2 :=
        trace1 ++ [Effect.cacheWrite cache_file_name user_session2] ++
          (match user_session2.expiration with
           | some e2 => [Effect.notify ("Session token will expire at " ++ parse_time e2)]
           | none => [])
      (.ok user_session2, cache2, trace2)

/-- `get_session_token` (aws.py lines 61-89).  Returns the Python outcome,
the cache store after the run, and the chronological effect list.  Note that
line 62 computes the cache key outside any `try`, and line 63 reads the cache
before `ignore_cache` is consulted. -/
def get_session_token (env : Env) (cache : Cache) (source_credentials : Creds)
    (region : String) (mfa_serial : Option String) (mfa_token : Option String)
    (ignore_cache : Bool) : Except PyErr Creds × Cache × List Effect :=
  match source_credentials.accessKeyId with
  | none => (.error (.typeError pyConcatNoneMsg), cache, [])
  | some akid =>
    let cache_file_name := "aws-credentials-" ++ akid
    let cache_session := read_aws_cache cache cache_file_name
    let trace0 := [Effect.cacheRead cache_file_name]
    if env.validCacheSession cache_session && !ignore_cache then
      match cache_session with
      | none => (.error (.keyError pyExpirationKeyErrorMsg), cache, trace0)
      | some cs =>
        match cs.expiration with
        | none => (.error (.keyError pyExpirationKeyErrorMsg), cache, trace0)
        | some e =>
          (.ok cs, cache,
           trace0 ++ [Effect.notify ("Session token will expire at " ++ parse_time e)])
    else
      let client : ClientParams :=
        ⟨source_credentials.accessKeyId, source_credentials.secretAccessKey,
         source_credentials.sessionToken, region⟩
      let serialArg := if truthyStr mfa_serial then mfa_serial else none
      let step : Option String × List Effect :=
        if !truthyStr mfa_serial then (none, [])
        else
          let t := orGetMfaToken env mfa_token
          (some t.1, t.2)
      let tokenArg := step.1
      let trace1 :=
        trace0 ++ step.2 ++ [Effect.remoteGetSessionToken client serialArg tokenArg]
      get_session_token_remote env cache cache_file_name client serialArg tokenArg
        region trace1

/-- `get_account_id` (aws.py lines 92-103).  Returns the printed account id
string together with the effect list; the whole body is wrapped in a bare
`except` returning `'Unavailable'`. -/
def get_account_id (env : Env) (credentials : Creds) : String × List Effect :=
  let client : ClientParams :=
    ⟨credentials.accessKeyId, credentials.secretAccessKey, credentials.sessionToken,
     credentials.region.getD "us-east-1"⟩
  match env.stsGetCallerIdentity client with
  | .error _ => ("Unavailable", [Effect.remoteGetCallerIdentity client])
  | .ok response =>
    (response.account.getD "Unavailable", [Effect.remoteGetCallerIdentity client])

/-- Is this effect a call to the remote identity service? -/
def Effect.isRemoteCall : Effect → Bool
  | .remoteAssumeRole _ _ => true
  | .remoteGetSessionToken _ _ _ => true
  | .remoteGetCallerIdentity _ => true
  | _ => false

/-- Is this effect an invocation of the interactive MFA prompt? -/
def Effect.isPrompt : Effect → Bool
  | .promptMfa => true
  | _ => false

/-- Number of remote-identity-service calls in a trace. -/
def countRemoteCalls (t : List Effect) : Nat := (t.filter Effect.isRemoteCall).length

/-- Number of interactive MFA prompt invocations in a trace. -/
def countPrompts (t : List Effect) : Nat := (t.filter Effect.isPrompt).length

/-- The region names of the get-caller-identity calls in a trace. -/
def gciRegions (t : List Effect) : List String :=
  t.filterMap fun e =>
    match e with
    | .remoteGetCallerIdentity cp => some cp.regionName
    | _ => none

/-- The token code of the trace's element at index `i` when that element is a
remote assume-role call, `none` otherwise. -/
def remoteARTokenCodeAt (t : List Effect) (i : Nat) : Option (Option String) :=
  match t[i]? with
  | some (Effect.remoteAssumeRole _ k) => some k.tokenCode
  | _ => none

/-- Is this outcome a raised `UserAuthenticationError`? -/
def isUserAuthErr : Except PyErr Creds → Bool
  | .error (.userAuthenticationError _) => true
  | _ => false

/-- A fresh credentials response of the remote service. -/
def credsFresh : Creds :=
  ⟨some "ASIAFRESH", some "freshsecret", some "freshtok", some ⟨100, "utc"⟩, none⟩

/-- Source credentials with access key id "AKIA". -/
def scW : Creds := ⟨some "AKIA", some "longsecret", none, none, none⟩

/-- Source credentials whose dict has no AccessKeyId key. -/
def scNoKey : Creds := ⟨none, none, none, none, none⟩

/-- A fully-populated, future-dated cached session. -/
def credsValidCached : Creds :=
  ⟨some "AKIA", some "cachedsecret", some "cachedtok", some ⟨50, "utc"⟩, some "us-east-1"⟩

/-- A concrete environment: spec validity at instant 0, assume-role denied,
get-session-token succeeding, caller-identity denied, storage writes
succeeding. -/
def envA : Env :=
  ⟨valid_cache_session_spec 0,
   fun _ _ => .error "AccessDenied",
   fun _ _ _ => .ok (some credsFresh),
   fun _ => .error "denied",
   "123456",
   true⟩

/-- A concrete environment: nothing valid in cache, caller identity found but
without an Account field, durable storage writes failing. -/
def envB : Env :=
  ⟨fun _ => false,
   fun _ _ => .error "AccessDenied",
   fun _ _ _ => .ok (some credsFresh),
   fun _ => .ok ⟨none⟩,
   "123456",
   false⟩

/-- The empty cache store. -/
def emptyCache : Cache := fun _ => none

/-- A cache store holding a valid session under scW's key. -/
def cacheV : Cache :=
  fun k => if k = "aws-credentials-AKIA" then some credsValidCached else none

/-- C10: when the source-credentials dict has no AccessKeyId, get_session_token
raises while computing the cache key (`'aws-credentials-' + None` is a
TypeError), before any cache read or remote call (the effect trace is empty),
and the raised error is not a UserAuthenticationError. -/
theorem c10_missing_access_key_id (env : Env) (cache : Cache) (sc : Creds)
    (region : String) (mfa_serial mfa_token : Option String) (ignore_cache : Bool)
    (hak : sc.accessKeyId = none) :
    (get_session_token env cache sc region mfa_serial mfa_token ignore_cache).1 =
      .error (.typeError pyConcatNoneMsg) ∧
    (get_session_token env cache sc region mfa_serial mfa_token ignore_cache).2.2 = [] ∧
    isUserAuthErr
      (get_session_token env cache sc region mfa_serial mfa_token ignore_cache).1 = false := by
  simp only [get_session_token, hak]
  exact ⟨trivial, trivial, rfl⟩

/-- C10 witness at concrete inputs. -/
theorem c10_missing_access_key_id_witness :
    (get_session_token envA emptyCache scNoKey "us-east-1" none none false).1 =
      .error (.typeError pyConcatNoneMsg) ∧
    (get_session_token envA emptyCache scNoKey "us-east-1" none none false).2.2 = [] ∧
    isUserAuthErr
      (get_session_token envA emptyCache scNoKey "us-east-1" none none false).1 = false :=
  c10_missing_access_key_id envA emptyCache scNoKey "us-east-1" none none false rfl

/-- C5: when the remote get-caller-identity call raises (any error),
get_account_id returns the literal "Unavailable" instead of propagating, and
the remote client is constructed with the credentials' Region, defaulting to
"us-east-1" when absent.  (`get_account_id` is a total function of its
environment, so it never raises by construction.) -/
theorem c5_account_id_unavailable_on_error (env : Env) (credentials : Creds)
    (e : String) (hfail : ∀ cp, env.stsGetCallerIdentity cp = .error e) :
    (get_account_id env credentials).1 = "Unavailable" ∧
    gciRegions (get_account_id env credentials).2 =
      [credentials.region.getD "us-east-1"] := by
  simp only [get_account_id, hfail]
  exact ⟨trivial, rfl⟩

/-- C5 witness at concrete inputs (credentials without a Region key). -/
theorem c5_account_id_unavailable_on_error_witness :
    (get_account_id envA scW).1 = "Unavailable" ∧
    gciRegions (get_account_id envA scW).2 = [scW.region.getD "us-east-1"] :=
  c5_account_id_unavailable_on_error envA scW "denied" (fun _ => rfl)

/-- C9: when the remote get-caller-identity call succeeds but its response has
no Account field, get_account_id returns "Unavailable" rather than raising or
returning an absent value. -/
theorem c9_account_id_unavailable_on_missing_field (env : Env) (credentials : Creds)
    (hok : ∀ cp, env.stsGetCallerIdentity cp = .ok ⟨none⟩) :
    (get_account_id env credentials).1 = "Unavailable" := by
  simp only [get_account_id, hok]
  rfl

/-- C9 witness at concrete inputs. -/
theorem c9_account_id_unavailable_on_missing_field_witness :
    (get_account_id envB scW).1 = "Unavailable" :=
  c9_account_id_unavailable_on_missing_field envB scW (fun _ => rfl)

/-- When the remote assume-role call raises, the remote phase classifies the
exception as `RoleAuthenticationError` with the same message and appends
nothing to the trace. -/
theorem assume_role_remote_error_eq (env : Env) (client : ClientParams)
    (kwargs : AssumeRoleKwargs) (region : String) (pre : List Effect) (e : String)
    (h : env.stsAssumeRole client kwargs = .error e) :
    assume_role_remote env client kwargs region pre =
      (.error (.roleAuthenticationError e), pre) := by
  unfold assume_role_remote
  rw [h]

/-- The remote phase only ever appends a notification to the trace it is
given: no further prompt and no further remote call. -/
theorem assume_role_remote_trace_shape (env : Env) (client : ClientParams)
    (kwargs : AssumeRoleKwargs) (region : String) (pre : List Effect) :
    ∃ rest, (assume_role_remote env client kwargs region pre).2 = pre ++ rest ∧
      ∀ x ∈ rest, x.isPrompt = false ∧ x.isRemoteCall = false := by
  unfold assume_role_remote
  cases h : env.stsAssumeRole client kwargs with
  | error e => exact ⟨[], by simp⟩
  | ok r =>
    cases r with
    | none => exact ⟨[], by simp⟩
    | some rs =>
      cases hexp : rs.expiration with
      | none => exact ⟨[], by simp [hexp]⟩
      | some exp =>
        refine ⟨[Effect.notify ("Role credentials will expire " ++
          parse_time (astimezone exp tzlocal))], by simp [hexp], ?_⟩
        intro x hx
        simp only [List.mem_singleton] at hx
        subst hx
        exact ⟨rfl, rfl⟩

/-- The kwargs-building phase raises no remote call, and it raises a prompt
effect exactly when the MFA serial is truthy and the supplied token is not. -/
theorem build_assume_role_kwargs_trace (env : Env) (role_arn session_name : String)
    (external_id : Option String) (role_duration : Option Int)
    (mfa_serial mfa_token : Option String) :
    (build_assume_role_kwargs env role_arn session_name external_id role_duration
        mfa_serial mfa_token).2 =
      if truthyStr mfa_serial && !truthyStr mfa_token then [Effect.promptMfa] else [] := by
  unfold build_assume_role_kwargs orGetMfaToken
  by_cases hms : truthyStr mfa_serial = true <;>
    by_cases hmt : truthyStr mfa_token = true <;>
      simp [hms, hmt]

/-- The token code the kwargs-building phase stores: when the MFA serial is
truthy it is the supplied token if truthy, else the prompt's result; when the
serial is not truthy no token code is stored. -/
theorem build_assume_role_kwargs_tokenCode (env : Env) (role_arn session_name : String)
    (external_id : Option String) (role_duration : Option Int)
    (mfa_serial mfa_token : Option String) :
    (build_assume_role_kwargs env role_arn session_name external_id role_duration
        mfa_serial mfa_token).1.tokenCode =
      if truthyStr mfa_serial then
        (if truthyStr mfa_token then some (mfa_token.getD "") else some env.getMfaToken)
      else none := by
  unfold build_assume_role_kwargs orGetMfaToken
  by_cases hms : truthyStr mfa_serial = true <;>
    by_cases hmt : truthyStr mfa_token = true <;>
      by_cases hei : truthyStr external_id = true <;>
        by_cases hrd : truthyInt role_duration = true <;>
          simp [hms, hmt, hei, hrd]

/-- Splitting `countRemoteCalls` over an append. -/
theorem countRemoteCalls_append (a b : List Effect) :
    countRemoteCalls (a ++ b) = countRemoteCalls a + countRemoteCalls b := by
  simp [countRemoteCalls, List.filter_append]

/-- Splitting `countPrompts` over an append. -/
theorem countPrompts_append (a b : List Effect) :
    countPrompts (a ++ b) = countPrompts a + countPrompts b := by
  simp [countPrompts, List.filter_append]

/-- C4: when the remote assume-role call raises with message `e`, assume_role
raises `RoleAuthenticationError` carrying exactly `e` (so in particular its
message contains the underlying message), and the trace holds exactly one
remote call: no retry is attempted. -/
theorem c4_assume_role_error_classified (env : Env) (sc : Creds)
    (role_arn session_name region : String) (external_id : Option String)
    (role_duration : Option Int) (mfa_serial mfa_token : Option String)
    (e : String) (hfail : ∀ cp k, env.stsAssumeRole cp k = .error e) :
    (assume_role env sc role_arn session_name region external_id role_duration
        mfa_serial mfa_token).1 = .error (.roleAuthenticationError e) ∧
    countRemoteCalls
      (assume_role env sc role_arn session_name region external_id role_duration
        mfa_serial mfa_token).2 = 1 := by
  simp only [assume_role]
  rw [assume_role_remote_error_eq _ _ _ _ _ e (hfail _ _)]
  refine ⟨rfl, ?_⟩
  rw [countRemoteCalls_append, build_assume_role_kwargs_trace]
  by_cases h : (truthyStr mfa_serial && !truthyStr mfa_token) = true <;>
    simp [h, countRemoteCalls, Effect.isRemoteCall]

/-- C4 witness: the spec's "AccessDenied" scenario at concrete inputs. -/
theorem c4_assume_role_error_classified_witness :
    (assume_role envA scW "arn:aws:iam::123:role/r" "mysession" "us-east-1"
        none none none none).1 =
      .error (.roleAuthenticationError "AccessDenied") ∧
    countRemoteCalls
      (assume_role envA scW "arn:aws:iam::123:role/r" "mysession" "us-east-1"
        none none none none).2 = 1 :=
  c4_assume_role_error_classified envA scW "arn:aws:iam::123:role/r" "mysession"
    "us-east-1" none none none none "AccessDenied" (fun _ _ => rfl)

/-- A trace whose elements are all non-prompts has no prompt invocations. -/
theorem countPrompts_eq_zero (l : List Effect) (h : ∀ x ∈ l, x.isPrompt = false) :
    countPrompts l = 0 := by
  have : List.filter Effect.isPrompt l = [] :=
    List.filter_eq_nil_iff.mpr (by intro a ha; simp [h a ha])
  simp [countPrompts, this]

/-- C7: for a role assumption with a (truthy) MFA serial and no supplied MFA
token, the interactive prompt is invoked exactly once, as the very first
effect, before the remote assume-role call, whose TokenCode is the prompt's
result; with a supplied (truthy) MFA token the prompt is not invoked. -/
theorem c7_mfa_prompt_exactly_once (env : Env) (sc : Creds)
    (role_arn session_name region : String) (external_id : Option String)
    (role_duration : Option Int) (ms : String) (hms : ¬ms = "") :
    ((assume_role env sc role_arn session_name region external_id role_duration
        (some ms) none).2)[0]? = some Effect.promptMfa ∧
    remoteARTokenCodeAt
      (assume_role env sc role_arn session_name region external_id role_duration
        (some ms) none).2 1 = some (some env.getMfaToken) ∧
    countPrompts (assume_role env sc role_arn session_name region external_id
        role_duration (some ms) none).2 = 1 ∧
    ∀ t, ¬t = "" →
      countPrompts (assume_role env sc role_arn session_name region external_id
        role_duration (some ms) (some t)).2 = 0 := by
  have hbms : truthyStr (some ms) = true := by simp [truthyStr, hms]
  obtain ⟨rest, htr, hrest⟩ := assume_role_remote_trace_shape env
    ⟨sc.accessKeyId, sc.secretAccessKey, sc.sessionToken, region⟩
    (build_assume_role_kwargs env role_arn session_name external_id role_duration
      (some ms) none).1 region
    ((build_assume_role_kwargs env role_arn session_name external_id role_duration
        (some ms) none).2 ++
      [Effect.remoteAssumeRole ⟨sc.accessKeyId, sc.secretAccessKey, sc.sessionToken, region⟩
        (build_assume_role_kwargs env role_arn session_name external_id role_duration
          (some ms) none).1])
  have hbk2 : (build_assume_role_kwargs env role_arn session_name external_id
      role_duration (some ms) none).2 = [Effect.promptMfa] := by
    rw [build_assume_role_kwargs_trace]
    simp [hbms, truthyStr, hms]
  have htrace : (assume_role env sc role_arn session_name region external_id
      role_duration (some ms) none).2 =
      Effect.promptMfa ::
      Effect.remoteAssumeRole ⟨sc.accessKeyId, sc.secretAccessKey, sc.sessionToken, region⟩
        (build_assume_role_kwargs env role_arn session_name external_id role_duration
          (some ms) none).1 :: rest := by
    simp only [assume_role]
    rw [htr, hbk2]
    simp
  refine ⟨?_, ?_, ?_, ?_⟩
  · rw [htrace]; rfl
  · rw [remoteARTokenCodeAt, htrace]
    simp only [List.getElem?_cons_succ, List.getElem?_cons_zero]
    rw [build_assume_role_kwargs_tokenCode]
    simp [hbms, truthyStr, hms]
  · rw [htrace]
    have h0 : countPrompts rest = 0 :=
      countPrompts_eq_zero rest (fun x hx => (hrest x hx).1)
    simp [countPrompts, Effect.isPrompt] at h0 ⊢
    simpa [countPrompts] using h0
  · intro t ht
    obtain ⟨rest2, htr2, hrest2⟩ := assume_role_remote_trace_shape env
      ⟨sc.accessKeyId, sc.secretAccessKey, sc.sessionToken, region⟩
      (build_assume_role_kwargs env role_arn session_name external_id role_duration
        (some ms) (some t)).1 region
      ((build_assume_role_kwargs env role_arn session_name external_id role_duration
          (some ms) (some t)).2 ++
        [Effect.remoteAssumeRole ⟨sc.accessKeyId, sc.secretAccessKey, sc.sessionToken, region⟩
          (build_assume_role_kwargs env role_arn session_name external_id role_duration
            (some ms) (some t)).1])
    have hbk2t : (build_assume_role_kwargs env role_arn session_name external_id
        role_duration (some ms) (some t)).2 = [] := by
      rw [build_assume_role_kwargs_trace]
      simp [hbms, truthyStr, ht]
    have htrace2 : (assume_role env sc role_arn session_name region external_id
        role_duration (some ms) (some t)).2 =
        Effect.remoteAssumeRole ⟨sc.accessKeyId, sc.secretAccessKey, sc.sessionToken, region⟩
          (build_assume_role_kwargs env role_arn session_name external_id role_duration
            (some ms) (some t)).1 :: rest2 := by
      simp only [assume_role]
      rw [htr2, hbk2t]
      simp
    rw [htrace2]
    have h0 : countPrompts rest2 = 0 :=
      countPrompts_eq_zero rest2 (fun x hx => (hrest2 x hx).1)
    simp [countPrompts, Effect.isPrompt] at h0 ⊢
    simpa [countPrompts] using h0

/-- C7 witness at concrete inputs: prompt first and exactly once with no
token supplied, absent with a supplied token. -/
theorem c7_mfa_prompt_exactly_once_witness :
    ((assume_role envA scW "arn:aws:iam::123:role/r" "mysession" "us-east-1"
        none none (some "GAHT12345678") none).2)[0]? = some Effect.promptMfa ∧
    remoteARTokenCodeAt
      (assume_role envA scW "arn:aws:iam::123:role/r" "mysession" "us-east-1"
        none none (some "GAHT12345678") none).2 1 = some (some "123456") ∧
    countPrompts (assume_role envA scW "arn:aws:iam::123:role/r" "mysession" "us-east-1"
        none none (some "GAHT12345678") none).2 = 1 ∧
    countPrompts (assume_role envA scW "arn:aws:iam::123:role/r" "mysession" "us-east-1"
        none none (some "GAHT12345678") (some "654321")).2 = 0 := by
  have h := c7_mfa_prompt_exactly_once envA scW "arn:aws:iam::123:role/r" "mysession"
    "us-east-1" none none "GAHT12345678" (by decide)
  exact ⟨h.1, h.2.1, h.2.2.1, h.2.2.2 "654321" (by decide)⟩

/-- C1: with IgnoreCache=false, when the cache holds an entry under
"aws-credentials-" ++ AccessKeyId that the validity gate accepts,
get_session_token returns exactly that cached entry and its trace holds no
remote-identity-service call at all.  The validity gate is arbitrary, so this
holds in particular for the spec's IsValid; a second call right after a first
call that populated a still-valid entry is the witness below. -/
theorem c1_cache_hit_skips_remote (env : Env) (cache : Cache) (sc : Creds)
    (region : String) (mfa_serial mfa_token : Option String)
    (akid : String) (c : Creds) (e : PyDateTime)
    (hak : sc.accessKeyId = some akid)
    (hc : cache ("aws-credentials-" ++ akid) = some c)
    (hv : env.validCacheSession (some c) = true)
    (he : c.expiration = some e) :
    (get_session_token env cache sc region mfa_serial mfa_token false).1 = .ok c ∧
    countRemoteCalls
      (get_session_token env cache sc region mfa_serial mfa_token false).2.2 = 0 := by
  simp only [get_session_token, hak, read_aws_cache, hc, hv, he]
  simp [countRemoteCalls, Effect.isRemoteCall]

/-- When the remote get-session-token call succeeds with fully-formed
credentials, the remote phase normalizes Expiration to the local zone, stamps
the region, performs the best-effort cache write and notifies. -/
theorem get_session_token_remote_success (env : Env) (cache : Cache)
    (cache_file_name : String) (client : ClientParams)
    (serialArg tokenArg : Option String) (region : String) (trace1 : List Effect)
    (fresh : Creds) (exp : PyDateTime)
    (hremote : env.stsGetSessionToken client serialArg tokenArg = .ok (some fresh))
    (hexp : fresh.expiration = some exp) :
    get_session_token_remote env cache cache_file_name client serialArg tokenArg
        region trace1 =
      (.ok { fresh with expiration := some ⟨exp.instant, tzlocal⟩, region := some region },
       write_aws_cache env.cacheWriteOk cache cache_file_name
         { fresh with expiration := some ⟨exp.instant, tzlocal⟩, region := some region },
       trace1 ++
         [Effect.cacheWrite cache_file_name
           { fresh with expiration := some ⟨exp.instant, tzlocal⟩, region := some region }] ++
         [Effect.notify ("Session token will expire at " ++
           parse_time ⟨exp.instant, tzlocal⟩)]) := by
  unfold get_session_token_remote
  rw [hremote]
  simp only [hexp]
  rfl

/-- C8: on a cache miss (or bypass) with a successful remote call and a
successful storage write, get_session_token returns the fresh credentials
with Expiration normalized to the local zone (same instant) and Region set to
the request's region, and the cache afterwards maps
"aws-credentials-" ++ AccessKeyId to exactly that record, whatever it held
before. -/
theorem c8_success_normalizes_and_caches (env : Env) (cache : Cache) (sc : Creds)
    (region : String) (mfa_serial mfa_token : Option String) (ignore_cache : Bool)
    (akid : String) (fresh : Creds) (exp : PyDateTime)
    (hak : sc.accessKeyId = some akid)
    (hnohit : env.validCacheSession (cache ("aws-credentials-" ++ akid)) = false)
    (hremote : ∀ cp s t, env.stsGetSessionToken cp s t = .ok (some fresh))
    (hexp : fresh.expiration = some exp)
    (hwok : env.cacheWriteOk = true) :
    (get_session_token env cache sc region mfa_serial mfa_token ignore_cache).1 =
      .ok { fresh with expiration := some ⟨exp.instant, tzlocal⟩, region := some region } ∧
    (get_session_token env cache sc region mfa_serial mfa_token ignore_cache).2.1
        ("aws-credentials-" ++ akid) =
      some { fresh with expiration := some ⟨exp.instant, tzlocal⟩, region := some region } := by
  simp only [get_session_token, hak, read_aws_cache, hnohit, Bool.false_and,
    Bool.false_eq_true, if_false]
  rw [get_session_token_remote_success env cache _ _ _ _ region _ fresh exp
    (hremote _ _ _) hexp]
  refine ⟨rfl, ?_⟩
  simp [write_aws_cache, hwok]

/-- C6: on a cache miss (or bypass) with a successful remote call, a failure
of the underlying storage write during the best-effort cache write does not
make get_session_token fail: the freshly fetched, normalized credentials are
still returned (the store is merely left unchanged). -/
theorem c6_cache_write_failure_still_returns (env : Env) (cache : Cache) (sc : Creds)
    (region : String) (mfa_serial mfa_token : Option String) (ignore_cache : Bool)
    (akid : String) (fresh : Creds) (exp : PyDateTime)
    (hak : sc.accessKeyId = some akid)
    (hnohit : env.validCacheSession (cache ("aws-credentials-" ++ akid)) = false)
    (hremote : ∀ cp s t, env.stsGetSessionToken cp s t = .ok (some fresh))
    (hexp : fresh.expiration = some exp)
    (hwfail : env.cacheWriteOk = false) :
    (get_session_token env cache sc region mfa_serial mfa_token ignore_cache).1 =
      .ok { fresh with expiration := some ⟨exp.instant, tzlocal⟩, region := some region } ∧
    (get_session_token env cache sc region mfa_serial mfa_token ignore_cache).2.1 = cache := by
  simp only [get_session_token, hak, read_aws_cache, hnohit, Bool.false_and,
    Bool.false_eq_true, if_false]
  rw [get_session_token_remote_success env cache _ _ _ _ region _ fresh exp
    (hremote _ _ _) hexp]
  refine ⟨rfl, ?_⟩
  simp [write_aws_cache, hwfail]

/-- The credentials a successful first get_session_token run caches and
returns with envA: the fresh remote credentials, Expiration normalized to the
local zone, Region stamped. -/
def credsFirst : Creds :=
  ⟨some "ASIAFRESH", some "freshsecret", some "freshtok", some ⟨100, tzlocal⟩,
   some "us-east-1"⟩

/-- The cache store produced by a first get_session_token run against the
empty store. -/
def cacheAfterFirst : Cache :=
  (get_session_token envA emptyCache scW "us-east-1" none none false).2.1

/-- C1 witness: the second of two successive calls, the first of which
populated a still-valid cache entry, returns that entry with zero remote
calls. -/
theorem c1_cache_hit_skips_remote_witness :
    (get_session_token envA cacheAfterFirst scW "us-east-1" none none false).1 =
      .ok credsFirst ∧
    countRemoteCalls
      (get_session_token envA cacheAfterFirst scW "us-east-1" none none false).2.2 = 0 :=
  c1_cache_hit_skips_remote envA cacheAfterFirst scW "us-east-1" none none
    "AKIA" credsFirst ⟨100, tzlocal⟩ rfl (by decide) (by decide) rfl

/-- C8 witness at concrete inputs against the empty store. -/
theorem c8_success_normalizes_and_caches_witness :
    (get_session_token envA emptyCache scW "us-east-1" none none false).1 =
      .ok credsFirst ∧
    (get_session_token envA emptyCache scW "us-east-1" none none false).2.1
        ("aws-credentials-" ++ "AKIA") = some credsFirst :=
  c8_success_normalizes_and_caches envA emptyCache scW "us-east-1" none none false
    "AKIA" credsFresh ⟨100, "utc"⟩ rfl rfl (fun _ _ _ => rfl) rfl rfl

/-- C6 witness at concrete inputs with a failing storage write. -/
theorem c6_cache_write_failure_still_returns_witness :
    (get_session_token envB emptyCache scW "us-east-1" none none false).1 =
      .ok credsFirst ∧
    (get_session_token envB emptyCache scW "us-east-1" none none false).2.1 =
      emptyCache :=
  c6_cache_write_failure_still_returns envB emptyCache scW "us-east-1" none none false
    "AKIA" credsFresh ⟨100, "utc"⟩ rfl rfl (fun _ _ _ => rfl) rfl rfl

/-- The remote phase of get_session_token appends only cache-write and
notification effects to the trace it is given: no prompt and no remote call
beyond those already in `trace1`. -/
theorem get_session_token_remote_trace_shape (env : Env) (cache : Cache)
    (cache_file_name : String) (client : ClientParams)
    (serialArg tokenArg : Option String) (region : String) (trace1 : List Effect) :
    ∃ rest, (get_session_token_remote env cache cache_file_name client serialArg
        tokenArg region trace1).2.2 = trace1 ++ rest ∧
      ∀ x ∈ rest, x.isPrompt = false ∧ x.isRemoteCall = false := by
  unfold get_session_token_remote
  cases h : env.stsGetSessionToken client serialArg tokenArg with
  | error e => exact ⟨[], by simp⟩
  | ok r =>
    cases r with
    | none => exact ⟨[], by simp⟩
    | some us =>
      cases hexp : us.expiration with
      | none => exact ⟨[], by simp [hexp]⟩
      | some exp =>
        refine ⟨[Effect.cacheWrite cache_file_name
            { us with expiration := some (astimezone exp tzlocal), region := some region },
          Effect.notify ("Session token will expire at " ++
            parse_time (astimezone exp tzlocal))], ?_, ?_⟩
        · simp [hexp]
        · intro x hx
          simp only [List.mem_cons, List.not_mem_nil, or_false] at hx
          rcases hx with rfl | rfl <;> exact ⟨rfl, rfl⟩

/-- C3 counterexample: with IgnoreCache=true and a valid cached entry under
the source credentials' key, get_session_token still performs the cache read
(aws.py line 63 reads the cache before consulting ignore_cache), refuting the
claim that the cache read is performed only when IgnoreCache is false. -/
theorem c3_counterexample :
    Effect.cacheRead "aws-credentials-AKIA" ∈
      (get_session_token envA cacheV scW "us-east-1" none none true).2.2 := by
  decide

/-- C3 (amended): with IgnoreCache=true, get_session_token still reads the
cache (the read is unconditional) but ignores the cached entry, and calls the
remote get-session-token operation exactly once even when a valid cached
entry exists for the source credentials' access key id. -/
theorem c3_ignore_cache_calls_remote (env : Env) (cache : Cache) (sc : Creds)
    (region : String) (mfa_serial mfa_token : Option String)
    (akid : String) (c : Creds)
    (hak : sc.accessKeyId = some akid)
    (hc : cache ("aws-credentials-" ++ akid) = some c)
    (hv : env.validCacheSession (some c) = true) :
    Effect.cacheRead ("aws-credentials-" ++ akid) ∈
      (get_session_token env cache sc region mfa_serial mfa_token true).2.2 ∧
    countRemoteCalls
      (get_session_token env cache sc region mfa_serial mfa_token true).2.2 = 1 := by
  simp only [get_session_token, hak, read_aws_cache, hc, hv, Bool.not_true,
    Bool.and_false, Bool.false_eq_true, if_false]
  obtain ⟨rest, htr, hrest⟩ :=
    get_session_token_remote_trace_shape env cache _ _ _ _ region _
  rw [htr]
  have hrest0 : List.filter Effect.isRemoteCall rest = [] :=
    List.filter_eq_nil_iff.mpr (fun a ha => by simp [(hrest a ha).2])
  constructor
  · simp
  · by_cases hm : truthyStr mfa_serial = true <;>
      by_cases hmt : truthyStr mfa_token = true <;>
        simp [hm, hmt, orGetMfaToken, countRemoteCalls, List.filter_append,
          hrest0, Effect.isRemoteCall]


/-- C2: any remote get-session-token call appearing in a get_session_token
trace carries SerialNumber equal to the MFA serial exactly when that serial
is (truthy-)present and `none` (the Python `None`, i.e. parameter not
supplied) otherwise, and carries a TokenCode exactly when the serial is
present (the supplied token if truthy, else the prompt's result); with the
serial absent both parameters are `none`. -/
theorem c2_mfa_params_only_with_serial (env : Env) (cache : Cache) (sc : Creds)
    (region : String) (mfa_serial mfa_token : Option String) (ignore_cache : Bool)
    (cp : ClientParams) (s t : Option String)
    (h : Effect.remoteGetSessionToken cp s t ∈
      (get_session_token env cache sc region mfa_serial mfa_token ignore_cache).2.2) :
    s = (if truthyStr mfa_serial then mfa_serial else none) ∧
    t = (if truthyStr mfa_serial then
          some (if truthyStr mfa_token then mfa_token.getD "" else env.getMfaToken)
        else none) := by
  cases hak : sc.accessKeyId with
  | none => simp [get_session_token, hak] at h
  | some akid =>
    simp only [get_session_token, hak, read_aws_cache] at h
    by_cases hcond :
        (env.validCacheSession (cache ("aws-credentials-" ++ akid)) && !ignore_cache) = true
    · simp only [hcond, if_true] at h
      cases hcs : cache ("aws-credentials-" ++ akid) with
      | none => simp [hcs] at h
      | some cs =>
        rw [hcs] at h
        cases hexp : cs.expiration with
        | none => simp [hexp] at h
        | some e => simp [hexp] at h
    · have hcond2 :
          (env.validCacheSession (cache ("aws-credentials-" ++ akid)) && !ignore_cache)
            = false := by
        simpa using hcond
      simp only [hcond2, Bool.false_eq_true, if_false] at h
      obtain ⟨rest, htr, hrest⟩ :=
        get_session_token_remote_trace_shape env cache _ _ _ _ region _
      rw [htr] at h
      by_cases hm : truthyStr mfa_serial = true
      · by_cases hmt : truthyStr mfa_token = true
        · simp only [hm, hmt] at h ⊢
          simp [orGetMfaToken, hmt] at h
          rcases h with ⟨hcp, hs, ht⟩ | h
          · exact ⟨by simp [hs], by simp [ht]⟩
          · have := (hrest _ h).2
            simp [Effect.isRemoteCall] at this
        · simp only [hm, hmt] at h ⊢
          simp only [Bool.not_eq_true] at hmt
          simp [orGetMfaToken, hmt] at h
          rcases h with ⟨hcp, hs, ht⟩ | h
          · exact ⟨by simp [hs], by simp [hmt, ht]⟩
          · have := (hrest _ h).2
            simp [Effect.isRemoteCall] at this
      · simp only [Bool.not_eq_true] at hm
        simp only [hm] at h ⊢
        simp [orGetMfaToken, hm] at h
        rcases h with ⟨hcp, hs, ht⟩ | h
        · exact ⟨by simp [hm, hs], by simp [hm, ht]⟩
        · have := (hrest _ h).2
          simp [Effect.isRemoteCall] at this

/-- C2 witness at concrete inputs: with a truthy MFA serial and a supplied
token, the remote call observed in the trace carries exactly those
parameters. -/
theorem c2_mfa_params_only_with_serial_witness :
    (some "GAHT12345678" : Option String) =
      (if truthyStr (some "GAHT12345678") then some "GAHT12345678" else none) ∧
    (some "654321" : Option String) =
      (if truthyStr (some "GAHT12345678") then
        some (if truthyStr (some "654321") then (some "654321" : Option String).getD ""
          else envB.getMfaToken)
      else none) :=
  c2_mfa_params_only_with_serial envB emptyCache scW "us-east-1" (some "GAHT12345678")
    (some "654321") false ⟨some "AKIA", some "longsecret", none, "us-east-1"⟩
    (some "GAHT12345678") (some "654321") (by decide)

/-- C3 witness at concrete inputs: IgnoreCache=true with a valid cached
entry still reads the cache and makes exactly one remote call. -/
theorem c3_ignore_cache_calls_remote_witness :
    Effect.cacheRead ("aws-credentials-" ++ "AKIA") ∈
      (get_session_token envA cacheV scW "us-east-1" none none true).2.2 ∧
    countRemoteCalls
      (get_session_token envA cacheV scW "us-east-1" none none true).2.2 = 1 :=
  c3_ignore_cache_calls_remote envA cacheV scW "us-east-1" none none "AKIA"
    credsValidCached rfl (by decide) (by decide)
